import Mathlib

/-
Verification of the MetropoleAI retrieval-and-decision pipeline.

Shallow embedding of the core of the repository:
  * model/index.py    — HuggingFaceIndex.query (similarity search adapter)
  * main.py           — the POST /ask handler (decision pipeline)
  * model/rewrite_utils.py — rewrite_answer (LLM rewrite collaborator wrapper)
  * utils/logging_utils.py — log_interaction (persistence sink)

Python floats are modelled as rationals (the pipeline only compares and
stores scores).  External collaborators (the llama_index query engine, the
HTTP inference API, the SQLite write) are modelled as explicit inputs: the
list of source nodes the engine would return, the outcome of each HTTP
attempt, and the outcome of the database write.  Python string methods
split/strip are modelled by structural functions on the character list so
that concrete runs reduce inside the kernel.
-/

namespace Metropole

/-- A retrieved passage: a text together with its similarity score
(the dictionaries `{"text": ..., "score": ...}` built in index.py). -/
structure Passage where
  text : String
  score : ℚ
deriving DecidableEq, Repr

/-- Stable insertion of a passage into a score-descending list: the new
passage is placed before the first element whose score is not larger, so an
element inserted later (i.e. earlier in the original list, with `foldr`)
precedes equal-scored elements. -/
def insertDesc (p : Passage) : List Passage → List Passage
  | [] => [p]
  | q :: qs => if p.score < q.score then q :: insertDesc p qs else p :: q :: qs

/-- Model of `results.sort(key=lambda x: x["score"], reverse=True)`
(index.py line 118): Python's list.sort is a stable sort, here by score in
descending order. -/
def sortByScoreDesc (l : List Passage) : List Passage :=
  l.foldr insertDesc []

/-- The `HuggingFaceIndex` wrapper class (index.py): `self.index` is `None`
until an index has been built or loaded; otherwise it holds the vector index
over the indexed texts. -/
structure HuggingFaceIndex where
  index : Option (List String)
deriving DecidableEq

/-- `HuggingFaceIndex.query` (index.py lines 70-120).  The llama_index query
engine is an external collaborator; the source nodes it returns for
`query_text`/`top_k` are passed in as `sourceNodes`.
  * `self.index is None`  → the one-element sentinel list
    `[{"text": "No documents indexed yet.", "score": 0.0}]` (lines 86-87);
  * engine returned no nodes → the one-element sentinel list
    `[{"text": "No relevant information found.", "score": 0.0}]` (lines 104-105);
  * otherwise the node dictionaries sorted by score descending (line 118). -/
def HuggingFaceIndex.query (self : HuggingFaceIndex) (query_text : String)
    (top_k : Nat) (sourceNodes : List Passage) : List Passage :=
  match self.index with
  | none => [⟨"No documents indexed yet.", 0⟩]
  | some _ =>
    if sourceNodes.isEmpty then [⟨"No relevant information found.", 0⟩]
    else sortByScoreDesc sourceNodes

/-- Outcome of one FastAPI request to POST /ask: either a JSON body
(an ordered list of field-name/value pairs) returned with HTTP 200, or an
uncaught Python exception escaping the handler (surfaced as HTTP 500). -/
inductive AskOutcome where
  | ok (body : List (String × String))
  | exc (message : String)
deriving DecidableEq

/-- The field names of the returned JSON body (empty when the handler
raised). -/
def responseKeys : AskOutcome → List String
  | .ok body => body.map Prod.fst
  | .exc _ => []

/-- Outcome of `log_interaction`: the row was written, or the write raised
and the exception was caught and logged. -/
inductive LogOutcome where
  | written
  | swallowed (message : String)
deriving DecidableEq

/-- `log_interaction` (logging_utils.py lines 71-103).  The body is one
`try` block around the SQLite write (modelled by its outcome `dbWrite`)
with `except Exception` catching everything (lines 102-103).  The `Except`
layer of the result represents an exception escaping `log_interaction`;
the source never lets one escape. -/
def log_interaction (dbWrite : Except String Unit) : Except String LogOutcome :=
  match dbWrite with
  | .ok _ => .ok .written
  | .error e => .ok (.swallowed e)

/-- The POST /ask handler `ask` of main.py (lines 24-58) as shipped.
`index` is the module-level result of `load_index()` (None when nothing was
on disk).  When an index is loaded, line 32 binds `query_result` to the
list returned by `HuggingFaceIndex.query`, and line 33 evaluates
`query_result["text"]`: subscripting a Python list with a string key raises
`TypeError`, so lines 34-58 are unreachable and the handler raises for
every loaded-index request. -/
def ask (index : Option HuggingFaceIndex) (sourceNodes : List Passage)
    (dbWrite : Except String Unit) (question : String) : AskOutcome :=
  match index with
  | none =>
    match log_interaction dbWrite with
    | .ok _ => .ok [("answer", "No documents indexed yet.")]
    | .error e => .exc e
  | some idx =>
    let _query_result := idx.query question 3 sourceNodes
    .exc "TypeError: list indices must be integers or slices, not str"

/-- The fallback message built at main.py line 56. -/
def fallbackMessage (question : String) : String :=
  "No strong match found in index. Query: '" ++ question ++
    "'. Consider checking content coverage or reindexing."

/-- The decision trace of one request through main.py lines 36-58: the
answer returned in the JSON body, the `response_type` passed to
`log_interaction`, and the `score` passed to `log_interaction`. -/
structure Decision where
  answer : String
  response_type : String
  logged_score : ℚ
deriving DecidableEq

/-- main.py lines 36-58, the decision step of the handler, as a function of
the variables in scope there: `raw_passage` and `score` (the top query
result), the outcome of `await rewrite_answer(...)` and the configured
`SIMILARITY_THRESHOLD`.
  * line 36 `if not raw_passage:` — empty text → the "No information found
    for this question." error branch, logged with score 0.0;
  * line 42 `if score >= SIMILARITY_THRESHOLD:` — rewrite attempted;
    line 46 `if rewritten_answer:` is Python truthiness, so `None` and the
    empty string both fall to the direct branch (lines 50-53);
  * otherwise the fallback branch (lines 54-58), logged with `score`. -/
def askDecision (question raw_passage : String) (score : ℚ)
    (rewritten_answer : Option String) (SIMILARITY_THRESHOLD : ℚ) : Decision :=
  if raw_passage = "" then
    ⟨"No information found for this question.", "error", 0⟩
  else if SIMILARITY_THRESHOLD ≤ score then
    match rewritten_answer with
    | some r => if r = "" then ⟨raw_passage, "direct", score⟩
                else ⟨r, "rewrite", score⟩
    | none => ⟨raw_passage, "direct", score⟩
  else
    ⟨fallbackMessage question, "fallback", score⟩

/-- The decision step followed by `log_interaction` and the `return` of the
handler body (main.py lines 42-58): the handler logs the interaction and
then returns the answer.  The `Except` layer represents an exception
escaping this part of the handler. -/
def askDecisionLogged (question raw_passage : String) (score : ℚ)
    (rewritten_answer : Option String) (SIMILARITY_THRESHOLD : ℚ)
    (dbWrite : Except String Unit) : Except String (String × LogOutcome) := do
  let d := askDecision question raw_passage score rewritten_answer SIMILARITY_THRESHOLD
  let logged ← log_interaction dbWrite
  return (d.answer, logged)

/-- Python truthiness of an `os.getenv` result: `None` and `""` are falsy. -/
def envFalsy : Option String → Bool
  | none => true
  | some s => s = ""

/-- Python `str.strip()` on the character list: drop whitespace from both
ends. -/
def pyStripChars (s : List Char) : List Char :=
  ((s.dropWhile Char.isWhitespace).reverse.dropWhile Char.isWhitespace).reverse

/-- Python `str.strip()`. -/
def pyStrip (s : String) : String :=
  String.mk (pyStripChars s.data)

/-- Index of the first occurrence of `pat` in the list, scanning left to
right (the position at which Python's `str.split` finds its next
separator). -/
def findSeq (pat : List Char) : List Char → Option Nat
  | [] => if pat = [] then some 0 else none
  | c :: cs =>
    if pat.isPrefixOf (c :: cs) then some 0
    else (findSeq pat cs).map (· + 1)

/-- The literal delimiter `"Answer:"` used at rewrite_utils.py line 77. -/
def answerMarker : List Char :=
  "Answer:".data

/-- rewrite_utils.py lines 74-86 given the (already stripped, non-empty)
`generated_text`: `answer_parts = generated_text.split("Answer:")`; when the
delimiter occurs (`len(answer_parts) > 1`) the result is
`answer_parts[1].strip()` — the text after the first occurrence of the
delimiter, up to the next non-overlapping occurrence if any — otherwise the
whole `generated_text`. -/
def cleanAnswer (generated_text : String) : String :=
  match findSeq answerMarker generated_text.data with
  | none => generated_text
  | some i =>
    let afterFirst := generated_text.data.drop (i + answerMarker.length)
    let part1 :=
      match findSeq answerMarker afterFirst with
      | none => afterFirst
      | some j => afterFirst.take j
    String.mk (pyStripChars part1)

/-- The split segment `answer_parts[1].strip()` when the first occurrence of
the delimiter in `s` is at index `i` (helper used to state what
`cleanAnswer` returns). -/
def afterFirstSegment (s : String) (i : Nat) : String :=
  String.mk (pyStripChars
    (match findSeq answerMarker (s.data.drop (i + answerMarker.length)) with
     | none => s.data.drop (i + answerMarker.length)
     | some j => (s.data.drop (i + answerMarker.length)).take j))

/-- Follows the spec's words, for comparison with `cleanAnswer`: "keep only
the text after the last such marker" — the text after the last occurrence of
`"Answer:"`, the whole text when the marker is absent.  The last occurrence
in `s` is the first occurrence of the reversed marker in the reversed
text. -/
def specAfterLastMarker (s : String) : String :=
  match findSeq answerMarker.reverse s.data.reverse with
  | none => s
  | some i => String.mk ((s.data.reverse.take i).reverse)

/-- Outcome of one HTTP POST to the Hugging Face inference API (an external
collaborator): a 200 response from which the handler extracted the
`generated_text` payload (rewrite_utils.py lines 58-72), or one of the three
caught exception classes (lines 91-96). -/
inductive ApiAttempt where
  | payload (generated_text : String)
  | httpStatusError
  | requestError
  | unexpectedError
deriving DecidableEq

/-- One iteration of the retry loop (rewrite_utils.py lines 51-100): a
caught exception falls through to the next attempt; a payload is stripped
(line 63), an empty result falls through (lines 87-89), and a non-empty one
returns the cleaned answer (lines 74-86). -/
def attemptOutcome : ApiAttempt → Option String
  | .payload gt =>
    let generated_text := pyStrip gt
    if generated_text = "" then none
    else some (cleanAnswer generated_text)
  | _ => none

/-- `rewrite_answer` (rewrite_utils.py lines 19-104).  `HF_API_TOKEN` is the
module-level `os.getenv("HF_TOKEN")`; when it is falsy the function returns
`None` before any HTTP call (lines 30-32).  Otherwise the loop makes at most
two attempts and returns `None` when both fail.  The second component counts
the HTTP calls made. -/
def rewrite_answer (HF_API_TOKEN : Option String)
    (attempt1 attempt2 : ApiAttempt) : Option String × Nat :=
  if envFalsy HF_API_TOKEN then (none, 0)
  else
    match attemptOutcome attempt1 with
    | some clean => (some clean, 1)
    | none =>
      match attemptOutcome attempt2 with
      | some clean => (some clean, 2)
      | none => (none, 2)

end Metropole

namespace Metropole

theorem mem_insertDesc {x p : Passage} {l : List Passage} (h : x ∈ insertDesc p l) :
    x = p ∨ x ∈ l := by
  induction l with
  | nil =>
    simp only [insertDesc, List.mem_singleton] at h
    exact Or.inl h
  | cons q qs ih =>
    by_cases hlt : p.score < q.score
    · rw [insertDesc, if_pos hlt] at h
      rcases List.mem_cons.mp h with h | h
      · exact Or.inr (h ▸ List.mem_cons_self q qs)
      · rcases ih h with h' | h'
        · exact Or.inl h'
        · exact Or.inr (List.mem_cons_of_mem q h')
    · rw [insertDesc, if_neg hlt] at h
      rcases List.mem_cons.mp h with h | h
      · exact Or.inl h
      · exact Or.inr h

theorem pairwise_insertDesc {p : Passage} {l : List Passage}
    (h : l.Pairwise (fun a b => b.score ≤ a.score)) :
    (insertDesc p l).Pairwise (fun a b => b.score ≤ a.score) := by
  induction l with
  | nil => simp [insertDesc]
  | cons q qs ih =>
    rcases List.pairwise_cons.mp h with ⟨hq, hqs⟩
    by_cases hlt : p.score < q.score
    · rw [insertDesc, if_pos hlt]
      refine List.pairwise_cons.mpr ⟨?_, ih hqs⟩
      intro b hb
      rcases mem_insertDesc hb with rfl | hb'
      · exact le_of_lt hlt
      · exact hq b hb'
    · rw [insertDesc, if_neg hlt]
      refine List.pairwise_cons.mpr ⟨?_, h⟩
      intro b hb
      rcases List.mem_cons.mp hb with rfl | hb'
      · exact le_of_not_lt hlt
      · exact le_trans (hq b hb') (le_of_not_lt hlt)

theorem pairwise_sortByScoreDesc (l : List Passage) :
    (sortByScoreDesc l).Pairwise (fun a b => b.score ≤ a.score) := by
  induction l with
  | nil => simp [sortByScoreDesc]
  | cons a l ih =>
    have h : sortByScoreDesc (a :: l) = insertDesc a (sortByScoreDesc l) := rfl
    rw [h]
    exact pairwise_insertDesc ih

theorem filter_insertDesc_of_eq {p : Passage} {s : ℚ} (hp : p.score = s) (l : List Passage) :
    (insertDesc p l).filter (fun q => decide (q.score = s))
      = p :: l.filter (fun q => decide (q.score = s)) := by
  induction l with
  | nil => simp [insertDesc, hp]
  | cons q qs ih =>
    by_cases hlt : p.score < q.score
    · have hq : ¬ q.score = s := by
        intro hq
        rw [hp, hq] at hlt
        exact lt_irrefl s hlt
      rw [insertDesc, if_pos hlt]
      simp [List.filter_cons, hq, ih]
    · rw [insertDesc, if_neg hlt]
      simp [List.filter_cons, hp]

theorem filter_insertDesc_of_ne {p : Passage} {s : ℚ} (hp : ¬ p.score = s) (l : List Passage) :
    (insertDesc p l).filter (fun q => decide (q.score = s))
      = l.filter (fun q => decide (q.score = s)) := by
  induction l with
  | nil => simp [insertDesc, hp]
  | cons q qs ih =>
    by_cases hlt : p.score < q.score
    · rw [insertDesc, if_pos hlt]
      simp [List.filter_cons, ih]
    · rw [insertDesc, if_neg hlt]
      simp [List.filter_cons, hp]

theorem filter_sortByScoreDesc (l : List Passage) (s : ℚ) :
    (sortByScoreDesc l).filter (fun q => decide (q.score = s))
      = l.filter (fun q => decide (q.score = s)) := by
  induction l with
  | nil => rfl
  | cons a l ih =>
    have h : sortByScoreDesc (a :: l) = insertDesc a (sortByScoreDesc l) := rfl
    rw [h]
    by_cases ha : a.score = s
    · rw [filter_insertDesc_of_eq ha, ih, List.filter_cons]
      simp [ha]
    · rw [filter_insertDesc_of_ne ha, ih, List.filter_cons]
      simp [ha]

theorem askDecision_of_le {question raw_passage : String} {score threshold : ℚ}
    (rewritten_answer : Option String) (hne : raw_passage ≠ "") (h : threshold ≤ score) :
    (askDecision question raw_passage score rewritten_answer threshold).response_type = "rewrite" ∨
    (askDecision question raw_passage score rewritten_answer threshold).response_type = "direct" := by
  rw [askDecision.eq_def, if_neg hne, if_pos h]
  cases rewritten_answer with
  | none => exact Or.inr rfl
  | some r =>
    by_cases hr : r = ""
    · exact Or.inr (by simp [hr])
    · exact Or.inl (by simp [hr])

end Metropole

namespace Metropole

/-- C1: the claim says every POST /ask request resolves to one of the four
terminal response types with no unhandled exception reaching the caller.
The shipped handler contradicts this: whenever an index is loaded, line 33
of main.py subscripts the list returned by `HuggingFaceIndex.query` with
the string key "text", which raises TypeError for every possible query
result, so the request ends in an uncaught exception (HTTP 500) instead of
a terminal response type. -/
theorem c1_loaded_index_raises (idx : HuggingFaceIndex) (sourceNodes : List Passage)
    (dbWrite : Except String Unit) (question : String) :
    ask (some idx) sourceNodes dbWrite question
      = .exc "TypeError: list indices must be integers or slices, not str" := rfl

/-- C2 counterexample: the claim says `query` on a never-built index returns
an empty sequence and not a sentinel passage.  The code returns the
one-element sentinel list `[{"text": "No documents indexed yet.",
"score": 0.0}]`, which is not empty. -/
theorem c2_counterexample :
    HuggingFaceIndex.query ⟨none⟩ "What are the pool hours?" 3 []
      = [⟨"No documents indexed yet.", 0⟩] ∧
    (HuggingFaceIndex.query ⟨none⟩ "What are the pool hours?" 3 []).isEmpty = false := by
  decide

/-- C2 amended: for every query string, top_k and engine result, `query` on
a never-built index returns the one-element sentinel list with the
"No documents indexed yet." text and score 0.0; the user-facing
"not indexed yet" message is surfaced by the caller through `load_index`
returning None (the `if not index` branch of main.py), not through an empty
query result. -/
theorem c2_sentinel_when_not_built (query_text : String) (top_k : Nat)
    (sourceNodes : List Passage) (dbWrite : Except String Unit) (question : String) :
    HuggingFaceIndex.query ⟨none⟩ query_text top_k sourceNodes
      = [⟨"No documents indexed yet.", 0⟩] ∧
    ask none sourceNodes dbWrite question
      = .ok [("answer", "No documents indexed yet.")] := by
  refine ⟨rfl, ?_⟩
  cases dbWrite <;> rfl

/-- C3: the threshold partition of main.py line 42 is inclusive at the
boundary: with a non-empty passage, `score >= SIMILARITY_THRESHOLD` takes
the rewrite/direct path and `score < SIMILARITY_THRESHOLD` the fallback
path; in particular a passage whose score equals the threshold is retained,
not filtered out. -/
theorem c3_threshold_inclusive (question raw_passage : String) (score threshold : ℚ)
    (rewritten_answer : Option String) (hne : raw_passage ≠ "") :
    (threshold ≤ score →
      (askDecision question raw_passage score rewritten_answer threshold).response_type
          = "rewrite" ∨
      (askDecision question raw_passage score rewritten_answer threshold).response_type
          = "direct") ∧
    (score < threshold →
      (askDecision question raw_passage score rewritten_answer threshold).response_type
          = "fallback") ∧
    ((askDecision question raw_passage threshold rewritten_answer threshold).response_type
          = "rewrite" ∨
     (askDecision question raw_passage threshold rewritten_answer threshold).response_type
          = "direct") := by
  refine ⟨fun h => askDecision_of_le rewritten_answer hne h, fun h => ?_,
    askDecision_of_le rewritten_answer hne (le_refl threshold)⟩
  rw [askDecision.eq_def, if_neg hne, if_neg (not_le.mpr h)]

theorem c3_threshold_inclusive_witness :
    ((1 : ℚ) ≤ 2 →
      (askDecision "q" "pool hours" 2 (some "ans") 1).response_type = "rewrite" ∨
      (askDecision "q" "pool hours" 2 (some "ans") 1).response_type = "direct") ∧
    ((2 : ℚ) < 1 →
      (askDecision "q" "pool hours" 2 (some "ans") 1).response_type = "fallback") ∧
    ((askDecision "q" "pool hours" 1 (some "ans") 1).response_type = "rewrite" ∨
     (askDecision "q" "pool hours" 1 (some "ans") 1).response_type = "direct") :=
  c3_threshold_inclusive "q" "pool hours" 2 1 (some "ans") (by decide)

/-- C4: with at least one retained passage, when both HTTP attempts of the
rewrite collaborator fail (caught exception or empty payload), the returned
value of rewrite_answer is None, so the decision step returns the top
passage text verbatim with response_type "direct" — never "rewrite". -/
theorem c4_rewrite_failure_direct (question raw_passage : String) (score threshold : ℚ)
    (token : Option String) (attempt1 attempt2 : ApiAttempt)
    (hne : raw_passage ≠ "") (hscore : threshold ≤ score)
    (hfail1 : attemptOutcome attempt1 = none) (hfail2 : attemptOutcome attempt2 = none) :
    (askDecision question raw_passage score
        (rewrite_answer token attempt1 attempt2).1 threshold).answer = raw_passage ∧
    (askDecision question raw_passage score
        (rewrite_answer token attempt1 attempt2).1 threshold).response_type = "direct" := by
  have hr : (rewrite_answer token attempt1 attempt2).1 = none := by
    rw [rewrite_answer]
    by_cases ht : envFalsy token
    · simp [ht]
    · simp [ht, hfail1, hfail2]
  rw [hr, askDecision.eq_def, if_neg hne, if_pos hscore]
  exact ⟨rfl, rfl⟩

theorem c4_rewrite_failure_direct_witness :
    (askDecision "What are the pool hours?" "The pool is open from 6am to 10pm." 1
        (rewrite_answer (some "token") .requestError .httpStatusError).1 1).answer
      = "The pool is open from 6am to 10pm." ∧
    (askDecision "What are the pool hours?" "The pool is open from 6am to 10pm." 1
        (rewrite_answer (some "token") .requestError .httpStatusError).1 1).response_type
      = "direct" :=
  c4_rewrite_failure_direct "What are the pool hours?" "The pool is open from 6am to 10pm."
    1 1 (some "token") .requestError .httpStatusError (by decide) (by decide) rfl rfl

/-- C5: for every query against a built index with a non-empty engine
result, the returned ranking is sorted by score in descending order, and for
every score value the sub-sequence of passages carrying that score is
exactly the corresponding sub-sequence of the engine result in its original
order (stability), so the ranking is deterministic. -/
theorem c5_query_ranking (contents : List String) (query_text : String) (top_k : Nat)
    (sourceNodes : List Passage) (hne : sourceNodes ≠ []) :
    (HuggingFaceIndex.query ⟨some contents⟩ query_text top_k sourceNodes).Pairwise
        (fun a b => b.score ≤ a.score) ∧
    ∀ s : ℚ,
      (HuggingFaceIndex.query ⟨some contents⟩ query_text top_k sourceNodes).filter
          (fun p => decide (p.score = s))
        = sourceNodes.filter (fun p => decide (p.score = s)) := by
  have hq : HuggingFaceIndex.query ⟨some contents⟩ query_text top_k sourceNodes
      = sortByScoreDesc sourceNodes := by
    rw [HuggingFaceIndex.query]
    rw [if_neg (by simp [List.isEmpty_iff, hne])]
  rw [hq]
  exact ⟨pairwise_sortByScoreDesc sourceNodes, fun s => filter_sortByScoreDesc sourceNodes s⟩

theorem c5_query_ranking_witness :
    (HuggingFaceIndex.query ⟨some ["doc"]⟩ "q" 3
        [⟨"a", 1⟩, ⟨"b", 2⟩, ⟨"c", 1⟩]).Pairwise (fun a b => b.score ≤ a.score) ∧
    ∀ s : ℚ,
      (HuggingFaceIndex.query ⟨some ["doc"]⟩ "q" 3
          [⟨"a", 1⟩, ⟨"b", 2⟩, ⟨"c", 1⟩]).filter (fun p => decide (p.score = s))
        = [⟨"a", 1⟩, ⟨"b", 2⟩, ⟨"c", 1⟩].filter (fun p => decide (p.score = s)) :=
  c5_query_ranking ["doc"] "q" 3 [⟨"a", 1⟩, ⟨"b", 2⟩, ⟨"c", 1⟩] (by decide)

/-- C6 counterexample: the claim says the persisted score is 0.0 in the
fallback case (candidates existed but all fell below the threshold).  The
code logs the actual top score: with top score 1 and threshold 2 the
decision is the fallback branch and the logged score is 1, not 0.0. -/
theorem c6_counterexample :
    (askDecision "fallback test" "Some irrelevant text" 1 none 2).response_type
      = "fallback" ∧
    (askDecision "fallback test" "Some irrelevant text" 1 none 2).logged_score = 1 ∧
    ¬ (askDecision "fallback test" "Some irrelevant text" 1 none 2).logged_score = 0 := by
  decide

/-- C6 amended: the persisted score equals the top queried passage's score
in the rewrite, direct and fallback branches alike, and is 0.0 exactly in
the error branch of the decision step (empty passage text); only the error
branches log 0.0. -/
theorem c6_logged_score (question raw_passage : String) (score threshold : ℚ)
    (rewritten_answer : Option String) :
    (askDecision question raw_passage score rewritten_answer threshold).logged_score
      = if raw_passage = "" then 0 else score := by
  by_cases hne : raw_passage = ""
  · rw [if_pos hne, askDecision.eq_def, if_pos hne]
  · rw [if_neg hne, askDecision.eq_def, if_neg hne]
    by_cases hs : threshold ≤ score
    · rw [if_pos hs]
      cases rewritten_answer with
      | none => rfl
      | some r =>
        by_cases hr : r = ""
        · simp [hr]
        · simp [hr]
    · rw [if_neg hs]

end Metropole

namespace Metropole

/-- C7 counterexample: the claim says the answer is the stripped text after
the LAST occurrence of "Answer:".  On the raw model output
"Answer: A Answer: B" the code returns "A" (split segment 1, after the
FIRST occurrence), while the text after the last occurrence is "B". -/
theorem c7_counterexample :
    (rewrite_answer (some "token") (.payload "Answer: A Answer: B") .requestError).1
      = some "A" ∧
    pyStrip (specAfterLastMarker "Answer: A Answer: B") = "B" ∧
    ¬ ((some "A" : Option String) = some "B") := by
  decide

/-- C7 amended: for a successful rewrite (token present, non-empty stripped
payload), when the delimiter "Answer:" is absent the whole stripped
generated text is returned; when its first occurrence is at index i, the
returned answer is the stripped split segment after that FIRST occurrence
(up to the next non-overlapping occurrence), not the text after the last
occurrence. -/
theorem c7_first_marker_segment (token generated : String) (attempt2 : ApiAttempt)
    (htoken : ¬ token = "") (hne : ¬ pyStrip generated = "") :
    (findSeq answerMarker (pyStrip generated).data = none →
        (rewrite_answer (some token) (.payload generated) attempt2).1
          = some (pyStrip generated)) ∧
    ∀ i : Nat, findSeq answerMarker (pyStrip generated).data = some i →
        (rewrite_answer (some token) (.payload generated) attempt2).1
          = some (afterFirstSegment (pyStrip generated) i) := by
  have hout : attemptOutcome (.payload generated)
      = some (cleanAnswer (pyStrip generated)) := by
    simp only [attemptOutcome]
    rw [if_neg hne]
  have hr : (rewrite_answer (some token) (.payload generated) attempt2).1
      = some (cleanAnswer (pyStrip generated)) := by
    rw [rewrite_answer, if_neg (by simp [envFalsy, htoken]), hout]
  constructor
  · intro hnone
    rw [hr, cleanAnswer.eq_def, hnone]
  · intro i hi
    rw [hr, cleanAnswer.eq_def, hi]
    rfl

theorem c7_first_marker_segment_witness :
    (findSeq answerMarker (pyStrip "Answer: hello resident").data = none →
        (rewrite_answer (some "token") (.payload "Answer: hello resident")
            .requestError).1 = some (pyStrip "Answer: hello resident")) ∧
    ∀ i : Nat,
      findSeq answerMarker (pyStrip "Answer: hello resident").data = some i →
        (rewrite_answer (some "token") (.payload "Answer: hello resident")
            .requestError).1
          = some (afterFirstSegment (pyStrip "Answer: hello resident") i) :=
  c7_first_marker_segment "token" "Answer: hello resident" .requestError
    (by decide) (by decide)

/-- C8: the claim says every POST /ask response carries the six body fields
question, score, response_type, raw_passages, filtered_out, final_response
with HTTP 200.  The shipped handler returns the single-field body
{"answer": ...} on its only non-raising path (no index loaded) and raises
TypeError (HTTP 500) for every loaded-index request. -/
theorem c8_response_body_shape :
    responseKeys (ask none [] (.ok ()) "What are the pool hours?") = ["answer"] ∧
    (responseKeys (ask none [] (.ok ()) "What are the pool hours?")).contains
        "final_response" = false ∧
    (responseKeys (ask none [] (.ok ()) "What are the pool hours?")).contains
        "question" = false ∧
    ask (some ⟨some ["pool"]⟩) [⟨"pool", 1⟩] (.ok ()) "What are the pool hours?"
      = .exc "TypeError: list indices must be integers or slices, not str" := by
  decide

/-- C9: for every decision and every outcome of the database write,
log_interaction returns normally (its catch-all swallows the write
exception), and the handler still returns the decision's answer unchanged:
a persistence failure never surfaces to the end user. -/
theorem c9_persistence_swallowed (question raw_passage : String) (score threshold : ℚ)
    (rewritten_answer : Option String) (dbWrite : Except String Unit) :
    (∃ logged : LogOutcome, log_interaction dbWrite = .ok logged) ∧
    ∃ logged : LogOutcome,
      askDecisionLogged question raw_passage score rewritten_answer threshold dbWrite
        = .ok ((askDecision question raw_passage score rewritten_answer threshold).answer,
               logged) := by
  cases dbWrite with
  | ok u => exact ⟨⟨.written, rfl⟩, ⟨.written, rfl⟩⟩
  | error e => exact ⟨⟨.swallowed e, rfl⟩, ⟨.swallowed e, rfl⟩⟩

/-- C10: when the HF_TOKEN environment variable is unset, rewrite_answer
returns None immediately with zero HTTP calls made, so every request whose
top passage clears the threshold resolves to response_type "direct". -/
theorem c10_no_token_direct (attempt1 attempt2 : ApiAttempt)
    (question raw_passage : String) (score threshold : ℚ)
    (hne : raw_passage ≠ "") (hscore : threshold ≤ score) :
    rewrite_answer none attempt1 attempt2 = (none, 0) ∧
    (askDecision question raw_passage score
        (rewrite_answer none attempt1 attempt2).1 threshold).response_type
      = "direct" := by
  refine ⟨rfl, ?_⟩
  have h0 : (rewrite_answer none attempt1 attempt2).1 = none := rfl
  rw [h0, askDecision.eq_def, if_neg hne, if_pos hscore]

theorem c10_no_token_direct_witness :
    rewrite_answer none (.payload "ok") .unexpectedError = (none, 0) ∧
    (askDecision "q" "pool hours" 1
        (rewrite_answer none (.payload "ok") .unexpectedError).1 1).response_type
      = "direct" :=
  c10_no_token_direct (.payload "ok") .unexpectedError "q" "pool hours" 1 1
    (by decide) (by decide)

end Metropole
